import Mathlib

/-!
Shallow embedding of `src/index.ts` of the slack-weather-radar-map bot
(a Slack command handler that fetches Yahoo! Japan static radar-map tiles
and posts either a single PNG or an animated GIF back to the channel),
together with proofs about the claims of its specification.

Modelling conventions:
* Machine time is measured in whole minutes since the Unix epoch (the code
  only ever manipulates timestamps at minute granularity: the formatted
  pattern is YYYYMMDDHHmm and the offsets are 10 minutes / 1 hour / 1 day).
  Asia/Tokyo is UTC+9 with no daylight saving, i.e. a fixed offset of
  540 minutes, so `subtract(1, 'day')` is exactly 1440 minutes.
* A `moment` object is a pair of an instant (UTC epoch minutes) and a
  display offset; `moment()` captures the current instant with the local
  offset, `.tz('Asia/Tokyo')` replaces the display offset by 540 while
  keeping the instant, `.add` / `.subtract` shift the instant, and
  `.format('YYYYMMDDHHmm')` renders the civil time at the display offset.
* Buffers and decoded images are modelled by their contents as `String`
  tokens; the environment (network, image decoder, Slack Web API) is a
  record of response functions, so that a theorem quantifying over the
  environment quantifies over every possible outcome of the external
  world.
* Promises: `Promise.all` of a list of started requests fulfills with the
  list of results in request-index order (never in arrival order), and
  rejects when any request rejects.  Callbacks chained with `.then` on
  the individual member promises run in the order those promises settle,
  which for the decode stage is the `decodeOrder` field of the
  environment.
-/


/-- A `moment` value: an instant (minutes since the Unix epoch, UTC)
together with the display offset in minutes used by `format`. -/
structure Moment where
  epochMin : Int
  tzOffsetMin : Int
deriving DecidableEq, Repr

/-- `moment()`: the current instant displayed at the local offset of the
invoking process. -/
def momentNow (nowUtcMin localOffsetMin : Int) : Moment :=
  ⟨nowUtcMin, localOffsetMin⟩

/-- `m.tz('Asia/Tokyo')` generalised: keep the instant, set the display
offset (540 for Asia/Tokyo). -/
def Moment.tz (m : Moment) (offsetMin : Int) : Moment :=
  ⟨m.epochMin, offsetMin⟩

/-- The fixed offset of Asia/Tokyo: UTC+9, no daylight saving. -/
def tokyoOffset : Int := 540

/-- `m.add(k, 'minutes')` (also `1 hour = 60`, `1 day = 1440`). -/
def Moment.addMinutes (m : Moment) (k : Int) : Moment :=
  ⟨m.epochMin + k, m.tzOffsetMin⟩

/-- `m.subtract(k, 'minutes')`. -/
def Moment.subtractMinutes (m : Moment) (k : Int) : Moment :=
  ⟨m.epochMin - k, m.tzOffsetMin⟩

/-- Zero-padded two-digit decimal rendering (the `MM`, `DD`, `HH`, `mm`
fields of the format pattern). -/
def pad2 (n : Nat) : String :=
  if n < 10 then "0" ++ toString n else toString n

/-- Zero-padded four-digit decimal rendering (the `YYYY` field). -/
def pad4 (n : Nat) : String :=
  if n < 10 then "000" ++ toString n
  else if n < 100 then "00" ++ toString n
  else if n < 1000 then "0" ++ toString n
  else toString n

/-- Proleptic-Gregorian civil date `(year, month, day)` of a day count
relative to 1970-01-01 (the standard era-based conversion used by every
calendar library, moment.js included). -/
def civilFromDays (z : Int) : Int × Nat × Nat :=
  let zz := z + 719468
  let era := Int.ediv zz 146097
  let doe := (zz - era * 146097).toNat
  let yoe := (doe - doe / 1460 + doe / 36524 - doe / 146096) / 365
  let y := (yoe : Int) + era * 400
  let doy := doe - (365 * yoe + yoe / 4 - yoe / 100)
  let mp := (5 * doy + 2) / 153
  let d := doy - (153 * mp + 2) / 5 + 1
  let mo := if mp < 10 then mp + 3 else mp - 9
  if mo ≤ 2 then (y + 1, mo, d) else (y, mo, d)

/-- `m.format('YYYYMMDDHHmm')`: the civil date-time of the instant at the
moment's display offset, rendered as 12 zero-padded decimal digits. -/
def formatYYYYMMDDHHmm (m : Moment) : String :=
  let total := m.epochMin + m.tzOffsetMin
  let days := Int.ediv total 1440
  let minOfDay := (Int.emod total 1440).toNat
  let c := civilFromDays days
  pad4 c.1.toNat ++ pad2 c.2.1 ++ pad2 c.2.2 ++
    pad2 (minOfDay / 60) ++ pad2 (minOfDay % 60)

/-- The environment-sourced configuration read once at startup
(`process.env.YAHOO_JAPAN_API_CLIENT_ID`, `YAHOO_JAPAN_API_MAP_MODE`). -/
structure Config where
  yahooAppId : String
  yahooMapMode : String
deriving DecidableEq, Repr

/-- Strip trailing `'0'` characters (JavaScript prints a `number` with the
shortest decimal representation, so `43.06417000` prints as `43.06417`). -/
def stripTrailingZeroChars (s : String) : String :=
  String.mk ((s.toList.reverse.dropWhile (fun c => c = '0')).reverse)

/-- Zero-padded eight-digit rendering of the fractional part. -/
def pad8 (n : Nat) : String :=
  let s := toString n
  String.mk (List.replicate (8 - s.length) '0') ++ s

/-- An exact decimal number with 8 fractional digits, stored as the value
scaled by 10^8.  This represents the latitude/longitude literals of the
source (plain decimal literals with at most 8 decimal places, e.g.
`43.06417`, `134.89879114`) exactly. -/
structure Dec8 where
  scaled : Int
deriving DecidableEq, Repr

/-- Decimal literals such as `43.06417` elaborate to exact `Dec8` values. -/
instance : OfScientific Dec8 where
  ofScientific m b e :=
    if b then ⟨(m : Int) * (10 : Int) ^ (8 - e)⟩
    else ⟨(m : Int) * (10 : Int) ^ e * 100000000⟩

instance (n : Nat) : OfNat Dec8 n where
  ofNat := ⟨(n : Int) * 100000000⟩

/-- Decimal rendering of a nonnegative `Dec8`, matching how JavaScript
template interpolation prints the latitude/longitude numbers (shortest
decimal form, no trailing zeros). -/
def decimalString (q : Dec8) : String :=
  let scaled := q.scaled.toNat
  let ip := scaled / 100000000
  let fp := scaled % 100000000
  if fp = 0 then toString ip
  else toString ip ++ "." ++ stripTrailingZeroChars (pad8 fp)

/-- The argument record of `buildImageUrl`. -/
structure ImageUrlArgs where
  lat : Dec8
  lon : Dec8
  width : Nat
  height : Nat
  m : Moment
deriving DecidableEq

/-- `buildImageUrl`: the Yahoo! Japan static-map GET URL, embedding the
credential, fixed zoom 10, location, size, map mode and the rainfall
overlay carrying the formatted timestamp. -/
def buildImageUrl (cfg : Config) (args : ImageUrlArgs) : String :=
  "https://map.yahooapis.jp/map/V1/static?appid=" ++ cfg.yahooAppId ++
  "&z=10&lat=" ++ decimalString args.lat ++
  "&lon=" ++ decimalString args.lon ++
  "&width=" ++ toString args.width ++
  "&height=" ++ toString args.height ++
  "&mode=" ++ cfg.yahooMapMode ++
  "&overlay=type:rainfall|datelabel:on|date:" ++ formatYYYYMMDDHHmm args.m

/-- A prefecture record: kanji display name, latitude, longitude. -/
structure Prefecture where
  kanjiName : String
  lat : Dec8
  lon : Dec8
deriving DecidableEq, Repr

/-- The entry stored under the key `tokyo` (and the fallback of the
lookup `prefectures[prefectureName] || prefectures['tokyo']`). -/
def tokyoPrefecture : Prefecture := ⟨"東京都", 35.68944, 139.69167⟩

/-- The `prefectures` lookup table: the 47 canonical entries of the object
literal, followed by the alias keys assigned afterwards (each alias maps
to the same record as its canonical spelling). -/
def prefectureTable : List (String × Prefecture) := [
  ("hokkaido", ⟨"北海道", 43.06417, 141.34694⟩),
  ("aomori", ⟨"青森県", 40.82444, 140.74⟩),
  ("iwate", ⟨"岩手県", 39.70361, 141.1525⟩),
  ("miyagi", ⟨"宮城県", 38.26889, 140.87194⟩),
  ("akita", ⟨"秋田県", 39.71861, 140.1025⟩),
  ("yamagata", ⟨"山形県", 38.24056, 140.36333⟩),
  ("fukushima", ⟨"福島県", 37.75, 140.46778⟩),
  ("ibaraki", ⟨"茨城県", 36.34139, 140.44667⟩),
  ("tochigi", ⟨"栃木県", 36.56583, 139.88361⟩),
  ("gunma", ⟨"群馬県", 36.39111, 139.06083⟩),
  ("saitama", ⟨"埼玉県", 35.85694, 139.64889⟩),
  ("chiba", ⟨"千葉県", 35.60472, 140.12333⟩),
  ("tokyo", tokyoPrefecture),
  ("kanagawa", ⟨"神奈川県", 35.44778, 139.6425⟩),
  ("niigata", ⟨"新潟県", 37.90222, 139.02361⟩),
  ("toyama", ⟨"富山県", 36.69528, 137.21139⟩),
  ("ishikawa", ⟨"石川県", 36.59444, 136.62556⟩),
  ("fukui", ⟨"福井県", 36.06528, 136.22194⟩),
  ("yamanashi", ⟨"山梨県", 35.66389, 138.56833⟩),
  ("nagano", ⟨"長野県", 36.65139, 138.18111⟩),
  ("gifu", ⟨"岐阜県", 35.39111, 136.72222⟩),
  ("shizuoka", ⟨"静岡県", 34.97694, 138.38306⟩),
  ("aichi", ⟨"愛知県", 35.18028, 136.90667⟩),
  ("mie", ⟨"三重県", 34.73028, 136.50861⟩),
  ("shiga", ⟨"滋賀県", 35.00444, 135.86833⟩),
  ("kyoto", ⟨"京都府", 35.02139, 135.75556⟩),
  ("osaka", ⟨"大阪府", 34.68639, 135.52⟩),
  ("hyogo", ⟨"兵庫県", 34.93228, 134.89879114⟩),
  ("nara", ⟨"奈良県", 34.68528, 135.83278⟩),
  ("wakayama", ⟨"和歌山県", 34.22611, 135.1675⟩),
  ("tottori", ⟨"鳥取県", 35.50361, 134.23833⟩),
  ("shimane", ⟨"島根県", 35.47222, 133.05056⟩),
  ("okayama", ⟨"岡山県", 34.66167, 133.935⟩),
  ("hiroshima", ⟨"広島県", 34.39639, 132.45944⟩),
  ("yamaguchi", ⟨"山口県", 34.18583, 131.47139⟩),
  ("tokushima", ⟨"徳島県", 34.06583, 134.55944⟩),
  ("kagawa", ⟨"香川県", 34.34028, 134.04333⟩),
  ("ehime", ⟨"愛媛県", 33.84167, 132.76611⟩),
  ("kochi", ⟨"高知県", 33.55972, 133.53111⟩),
  ("fukuoka", ⟨"福岡県", 33.60639, 130.41806⟩),
  ("saga", ⟨"佐賀県", 33.24944, 130.29889⟩),
  ("nagasaki", ⟨"長崎県", 32.74472, 129.87361⟩),
  ("kumamoto", ⟨"熊本県", 32.78972, 130.74167⟩),
  ("oita", ⟨"大分県", 33.23806, 131.6125⟩),
  ("miyazaki", ⟨"宮崎県", 31.91111, 131.42389⟩),
  ("kagoshima", ⟨"鹿児島県", 31.56028, 130.55806⟩),
  ("okinawa", ⟨"沖縄県", 26.2125, 127.68111⟩),
  ("oosaka", ⟨"大阪府", 34.68639, 135.52⟩),
  ("ohsaka", ⟨"大阪府", 34.68639, 135.52⟩),
  ("nigata", ⟨"新潟県", 37.90222, 139.02361⟩),
  ("hyougo", ⟨"兵庫県", 34.93228, 134.89879114⟩),
  ("kouchi", ⟨"高知県", 33.55972, 133.53111⟩),
  ("ooita", ⟨"大分県", 33.23806, 131.6125⟩),
  ("ohita", ⟨"大分県", 33.23806, 131.6125⟩)]

/-- The table's own keys only: `some` exactly when `name` is a key of the
object literal (all keys are distinct, so list lookup agrees with own-
property access).  This is NOT the whole of `prefectures[name]`:
JavaScript property access also walks the prototype chain — see
`prefecturesAccess`. -/
def lookupPrefecture (name : String) : Option Prefecture :=
  prefectureTable.lookup name

/-- `prefectures[prefectureName] || prefectures['tokyo']`, restricted to
tokens that do not name an inherited `Object.prototype` member: for such
tokens the access yields an own table entry (truthy) or `undefined`
(falsy), so the expression falls back to the `tokyo` record exactly when
the key is absent.  For the two lowercase `Object.prototype` member names
(`objectPrototypeKeys`) the source resolves differently — see
`prefecturesOrDefault`, the full model of the access. -/
def resolvePrefecture (name : String) : Prefecture :=
  (lookupPrefecture name).getD tokyoPrefecture

/-- The value of the JavaScript property access `prefectures[name]`:
an own property (one of the table's `Prefecture` objects, truthy), a
member inherited from `Object.prototype` (a function or object, truthy,
but not a `Prefecture` — its `lat`, `lon` and `kanjiName` are
`undefined`), or `undefined` (falsy). -/
inductive PrefLookupResult where
  | record (p : Prefecture)
  | inherited (name : String)
  | undef
deriving DecidableEq, Repr

/-- The member names of `Object.prototype` that are all-lowercase — the
only ones reachable through the handler, which lowercases the command
text before the lookup (`hasOwnProperty`, `toString`, `valueOf`, ... have
uppercase letters and are unreachable).  `constructor` is the `Object`
constructor function and `__proto__` the prototype accessor; both are
truthy. -/
def objectPrototypeKeys : List String := ["constructor", "__proto__"]

/-- `prefectures[name]` in full: own keys first, then the prototype
chain, else `undefined`. -/
def prefecturesAccess (name : String) : PrefLookupResult :=
  match lookupPrefecture name with
  | some p => PrefLookupResult.record p
  | none =>
    if name ∈ objectPrototypeKeys then PrefLookupResult.inherited name
    else PrefLookupResult.undef

/-- `prefectures[prefectureName] || prefectures['tokyo']` in full: `||`
returns the left operand when it is truthy — an own record OR a truthy
inherited member — and evaluates the right operand only for `undefined`. -/
def prefecturesOrDefault (name : String) : PrefLookupResult :=
  match prefecturesAccess name with
  | PrefLookupResult.undef => prefecturesAccess "tokyo"
  | hit => hit

/-- `extractMode`: `inputs[1]` when `inputs.length >= 2`, else `undefined`
(a list has length at least 2 exactly when it has the shape
`_ :: m :: _`, and then `inputs[1]` is `m`). -/
def extractMode : List String → Option String
  | _ :: m :: _ => some m
  | _ => none

/-- The loop body shared by the `today` and the forecast branch: push the
URL built from the current moment, then advance the moment by `step`
minutes, `count` times. -/
def frameLoop (m : Moment) (step : Int) : Nat → List Moment
  | 0 => []
  | Nat.succ n => m :: frameLoop (m.addMinutes step) step n

/-- The 25 moments of the `today` branch: starting from
`m.subtract(1, 'day')`, stepping by 1 hour. -/
def todayMoments (m : Moment) : List Moment :=
  frameLoop (m.subtractMinutes 1440) 60 25

/-- The 7 moments of the default (forecast) branch: starting from
`m.subtract(10, 'minutes')`, stepping by 10 minutes. -/
def forecastMoments (m : Moment) : List Moment :=
  frameLoop (m.subtractMinutes 10) 10 7

/-- The (modelled) response of `chat.postMessage`: the `ok` field and the
timestamp `res.message.ts` of the posted message. -/
structure PostResult where
  ok : Bool
  ts : String
deriving DecidableEq, Repr

/-- One console log line: `printCompleteJSON` applied to a caught error
(`errItem`), `printCompleteJSON` applied to a `chat.postMessage` response
inside `extractMessageTs` (`resItem`), or `console.log` applied to the
`files.upload` response (`infoItem`). -/
inductive LogItem where
  | errItem (e : String)
  | resItem (r : PostResult)
  | infoItem (s : String)
deriving DecidableEq, Repr

/-- The payload handed to `files.upload`: either the single fetched PNG
buffer, or the finalized GIF (modelled by its ordered frame list). -/
inductive FileData where
  | png (buf : String)
  | gif (frames : List String)
deriving DecidableEq, Repr

/-- The argument record of `uploadImage`. -/
structure UploadArgs where
  token : String
  channelId : String
  prefName : String
  prefKanjiName : String
  radarType : String
  file : FileData
  filetype : String
deriving DecidableEq, Repr

/-- The external world of one command invocation: the outcome of every
network request the handler can make, plus the order in which the
asynchronous fetch and decode promises settle.

`fetch url` is the settlement of `request.get({url, encoding: null})`;
`decode buf` is the settlement of `promisifyImageLoader(buf)` (the decoded
image is modelled by its content token); `post asUser` is the settlement
of `chat.postMessage` with the given `as_user` option; `upload` and `del`
are `files.upload` and `chat.delete`.  `arrivalOrder` is the order in
which the fetch promises settle: `Promise.all`'s fulfillment value is
index-aligned with the request list and never depends on it.
`decodeOrder` is the order in which the decode promises settle; the
`.then` callback chained on each decode promise (draw onto the canvas,
then `gifEncoder.addFrame`) runs in exactly this order. -/
structure Env where
  fetch : String → Except String String
  decode : String → Except String String
  post : Bool → Except String PostResult
  upload : UploadArgs → Except String String
  del : String → Except String Unit
  arrivalOrder : List Nat
  decodeOrder : List Nat

/-- `extractMessageTs` (without its logging side effect):
`res.ok ? res.message.ts : undefined`. -/
def extractMessageTs (res : PostResult) : Option String :=
  if res.ok then some res.ts else none

/-- What the status-message preamble produced: the `as_user` value of each
`chat.postMessage` call made, the resulting `loadingMessageTs`, and the
log lines emitted. -/
structure StatusOutcome where
  attempts : List Bool
  loadingTs : Option String
  logs : List LogItem
deriving DecidableEq, Repr

/-- The `loadingMessageTs` computation: post with `as_user: true`; on
success extract the ts (logging the response); on failure log the error,
flip `asUser` to `false` and retry once; on a second failure log that
error too and settle on `undefined`. -/
def statusFlow (env : Env) : StatusOutcome :=
  match env.post true with
  | Except.ok res => ⟨[true], extractMessageTs res, [LogItem.resItem res]⟩
  | Except.error e =>
    match env.post false with
    | Except.ok res =>
        ⟨[true, false], extractMessageTs res, [LogItem.errItem e, LogItem.resItem res]⟩
    | Except.error e2 =>
        ⟨[true, false], none, [LogItem.errItem e, LogItem.errItem e2]⟩

/-- Everything observable about one handled command invocation: the URLs
fetched, the status-message calls, which decode callbacks ran (indices in
completion order), the frames appended to the GIF encoder in call order,
the `files.upload` invocation (if reached), the `chat.delete` invocation
(if reached), how many times `gifEncoder.finish()` ran, the console log,
and any promise rejection that escaped the handler uncaught. -/
structure InvocationResult where
  isNowPath : Bool
  fetchedUrls : List String
  postAttempts : List Bool
  loadingTs : Option String
  decodeCalls : List Nat
  framesAdded : List String
  uploadCalled : Option UploadArgs
  deleteCalled : Option String
  finishCount : Nat
  logs : List LogItem
  uncaught : Option String
deriving DecidableEq, Repr

/-- The first rejection among a list of settled requests (the value
`Promise.all` rejects with; which error it is when several requests fail
does not matter to any claim, so the model scans in index order). -/
def firstError (rs : List (Except String String)) : Option String :=
  rs.findSome? (fun r => match r with
    | Except.error e => some e
    | Except.ok _ => none)

/-- The `mode === 'now'` branch: fetch one image and chain `uploadImage`
onto it.  Neither the fetch promise nor the upload promise has any
rejection handler attached, so a failure of either escapes the handler as
an uncaught rejection. -/
def runNow (cfg : Config) (env : Env) (token channelId : String)
    (prefName : String) (pref : Prefecture) (m : Moment) : InvocationResult :=
  let url := buildImageUrl cfg ⟨pref.lat, pref.lon, 400, 300, m⟩
  match env.fetch url with
  | Except.error e =>
      ⟨true, [url], [], none, [], [], none, none, 0, [], some e⟩
  | Except.ok image =>
    let args : UploadArgs :=
      ⟨token, channelId, prefName, pref.kanjiName, "現在の", FileData.png image, "png"⟩
    match env.upload args with
    | Except.error e => ⟨true, [url], [], none, [], [], some args, none, 0, [], some e⟩
    | Except.ok resp =>
        ⟨true, [url], [], none, [], [], some args, none, 0, [LogItem.infoItem resp], none⟩

/-- The decode stage of the animation branch, reached when every fetch
fulfilled: `images` is `Promise.all`'s fulfillment list (index-aligned
with the URLs), and the decode promises started by `images.map(...)`
settle in the order `env.decodeOrder`; each result is paired with its
image index.  The chained callback of each decode (draw onto the canvas +
`gifEncoder.addFrame`) runs in exactly this settlement order, not in
index order. -/
def animDecodeResults (env : Env) (urls : List String) :
    List (Nat × Except String String) :=
  let images := (urls.map env.fetch).filterMap (fun r => r.toOption)
  env.decodeOrder.filterMap
    (fun i => (images.get? i).map (fun b => (i, env.decode b)))

/-- The animation branch.  In source order: build the URLs and start all
fetches (one `request.get` per generated moment), run the status-message
preamble, create canvas and GIF encoder, then
`Promise.all(fetches).then(decode each and addFrame).then(upload)
.then(delete status).catch(log).finally(finish)`.

If any fetch rejects, `Promise.all` rejects: no decode callback runs, no
frame is added, `uploadImage` is never reached, the error is logged by
the `.catch`, and the `.finally` still runs `gifEncoder.finish()`.

If all fetches fulfill, frames are appended in decode-settlement order
(see `animDecodeResults`); the inner `Promise.all` fulfills only if every
decode fulfills; on any decode rejection the upload is skipped and the
error is logged, but the frames of decodes that settled successfully have
still been added. -/
def runAnimation (cfg : Config) (env : Env) (token channelId : String)
    (prefName : String) (pref : Prefecture) (radarType : String)
    (moments : List Moment) : InvocationResult :=
  let urls := moments.map (fun mm => buildImageUrl cfg ⟨pref.lat, pref.lon, 400, 300, mm⟩)
  let fetchResults := urls.map env.fetch
  let status := statusFlow env
  match firstError fetchResults with
  | some e =>
      ⟨false, urls, status.attempts, status.loadingTs, [], [], none, none, 1,
        status.logs ++ [LogItem.errItem e], none⟩
  | none =>
    let decodeResults := animDecodeResults env urls
    let decodeCalls := decodeResults.map (fun p => p.1)
    let framesAdded := decodeResults.filterMap (fun p => p.2.toOption)
    match firstError (decodeResults.map (fun p => p.2)) with
    | some e =>
        ⟨false, urls, status.attempts, status.loadingTs, decodeCalls, framesAdded,
          none, none, 1, status.logs ++ [LogItem.errItem e], none⟩
    | none =>
      let uargs : UploadArgs :=
        ⟨token, channelId, prefName, pref.kanjiName, radarType,
          FileData.gif framesAdded, "gif"⟩
      match env.upload uargs with
      | Except.error e =>
          ⟨false, urls, status.attempts, status.loadingTs, decodeCalls, framesAdded,
            some uargs, none, 1, status.logs ++ [LogItem.errItem e], none⟩
      | Except.ok resp =>
        match status.loadingTs with
        | none =>
            ⟨false, urls, status.attempts, none, decodeCalls, framesAdded,
              some uargs, none, 1, status.logs ++ [LogItem.infoItem resp], none⟩
        | some ts =>
          match env.del ts with
          | Except.ok _ =>
              ⟨false, urls, status.attempts, some ts, decodeCalls, framesAdded,
                some uargs, some ts, 1, status.logs ++ [LogItem.infoItem resp], none⟩
          | Except.error e =>
              ⟨false, urls, status.attempts, some ts, decodeCalls, framesAdded,
                some uargs, some ts, 1,
                status.logs ++ [LogItem.infoItem resp, LogItem.errItem e], none⟩

/-- The slash-command handler body: resolve the prefecture from the first
(lowercased) token with fallback to `tokyo`, extract the mode from the
second token, and dispatch — `'now'` takes the single-image branch, every
other value (including `undefined`) takes the animation branch, with
`'today'` selecting the 25 hourly moments and everything else the 7
forecast moments.

The resolution step uses `resolvePrefecture`, which is exact for every
first token outside `objectPrototypeKeys`; for the two inherited
`Object.prototype` member names the source proceeds with a non-Prefecture
value whose `lat`/`lon`/`kanjiName` are `undefined`
(see `prefecturesOrDefault` and the C7 theorems), a case this handler
model does not cover. -/
def handleCommand (cfg : Config) (env : Env) (nowUtcMin localOffsetMin : Int)
    (token channelId : String) (commandInputs : List String) : InvocationResult :=
  let prefectureName := commandInputs.headD "tokyo"
  let pref := resolvePrefecture prefectureName
  let mode := extractMode commandInputs
  if mode = some "now" then
    runNow cfg env token channelId prefectureName pref
      ((momentNow nowUtcMin localOffsetMin).tz tokyoOffset)
  else
    let m0 := (momentNow nowUtcMin localOffsetMin).tz tokyoOffset
    let moments := if mode = some "today" then todayMoments m0 else forecastMoments m0
    let radarType := if mode = some "today" then "直近一日分の" else "予測"
    runAnimation cfg env token channelId prefectureName pref radarType moments

/-- A concrete configuration used to instantiate theorems that carry
hypotheses. -/
def cfgW : Config := ⟨"testappid", "map"⟩

/-- A concrete everything-succeeds environment (fetch returns the URL
itself as the buffer, decode is the identity, the Slack calls succeed,
promises settle in start order) used to instantiate theorems that carry
hypotheses. -/
def envW : Env where
  fetch := fun u => Except.ok u
  decode := fun b => Except.ok b
  post := fun _ => Except.ok ⟨true, "100.200"⟩
  upload := fun _ => Except.ok "uploaded"
  del := fun _ => Except.ok ()
  arrivalOrder := List.range 7
  decodeOrder := List.range 7

/-- A concrete environment whose network fetches all fail. -/
def envFetchFail : Env where
  fetch := fun _ => Except.error "ECONNRESET"
  decode := fun b => Except.ok b
  post := fun _ => Except.ok ⟨true, "100.200"⟩
  upload := fun _ => Except.ok "uploaded"
  del := fun _ => Except.ok ()
  arrivalOrder := List.range 7
  decodeOrder := List.range 7

/-- The pipeline-progress fields of an invocation: everything except the
status-message bookkeeping (post attempts, loading handle, delete) and
the log. -/
def pipelineView (r : InvocationResult) :
    List String × List Nat × List String × Option UploadArgs × Nat :=
  (r.fetchedUrls, r.decodeCalls, r.framesAdded, r.uploadCalled, r.finishCount)

/-- A concrete environment whose `chat.postMessage` calls always fail
while everything else succeeds. -/
def envPostFail : Env where
  fetch := fun u => Except.ok u
  decode := fun b => Except.ok b
  post := fun _ => Except.error "not_in_channel"
  upload := fun _ => Except.ok "uploaded"
  del := fun _ => Except.ok ()
  arrivalOrder := List.range 7
  decodeOrder := List.range 7

/-- A concrete environment in which all fetches and decodes succeed (the
buffer is the URL itself and the decoded image is the buffer), but the
second decode promise settles before the first
(`decodeOrder = [1, 0, 2, 3, 4, 5, 6]`). -/
def envC1 : Env where
  fetch := fun u => Except.ok u
  decode := fun b => Except.ok b
  post := fun _ => Except.ok ⟨true, "100.200"⟩
  upload := fun _ => Except.ok "uploaded"
  del := fun _ => Except.ok ()
  arrivalOrder := List.range 7
  decodeOrder := [1, 0, 2, 3, 4, 5, 6]

/-- Sanity check of the calendar conversion: the Unix epoch displayed at
the Asia/Tokyo offset is 1970-01-01 09:00. -/
theorem formatYYYYMMDDHHmm_epoch : formatYYYYMMDDHHmm ⟨0, 540⟩ = "197001010900" := by
  decide

/-- Sanity check: 2020-01-01T00:00Z (epoch minute 26297280) displayed at
the Asia/Tokyo offset is 2020-01-01 09:00. -/
theorem formatYYYYMMDDHHmm_2020 :
    formatYYYYMMDDHHmm ⟨26297280, 540⟩ = "202001010900" := by
  decide

/-- Sanity check of the number rendering against JavaScript output. -/
theorem decimalString_tokyoLat : decimalString (35.68944 : Dec8) = "35.68944" := by
  decide

/-- Closed form of the fetch loop: the `i`-th generated moment is the
start moment advanced by `i` steps. -/
theorem frameLoop_eq_map (step : Int) (n : Nat) :
    ∀ b z : Int,
      frameLoop ⟨b, z⟩ step n = (List.range n).map (fun i => ⟨b + step * i, z⟩) := by
  induction n with
  | zero => intro b z; rfl
  | succ k ih =>
    intro b z
    rw [List.range_succ_eq_map, List.map_cons, List.map_map]
    show Moment.mk b z :: frameLoop ⟨b + step, z⟩ step k = _
    rw [ih (b + step) z]
    refine congrArg₂ List.cons (by simp) ?_
    refine List.map_congr_left ?_
    intro i _
    simp only [Function.comp]
    congr 1
    push_cast
    ring

/-- Consecutive moments generated by the fetch loop differ by exactly
`step` minutes. -/
theorem chain_frameLoop (step : Int) (n : Nat) :
    ∀ m : Moment,
      List.Chain' (fun p q : Moment => q.epochMin = p.epochMin + step)
        (frameLoop m step n) := by
  induction n with
  | zero => intro m; simp [frameLoop]
  | succ k ih =>
    intro m
    rw [frameLoop]
    refine List.chain'_cons'.mpr ⟨?_, ih _⟩
    intro q hq
    cases k with
    | zero => simp [frameLoop] at hq
    | succ j =>
      rw [frameLoop] at hq
      simp at hq
      subst hq
      rfl

/-- In every branch of the animation pipeline the fetched URL list is the
one built from the generated moments. -/
theorem runAnimation_fetchedUrls (cfg : Config) (env : Env) (token channelId : String)
    (prefName : String) (pref : Prefecture) (radarType : String)
    (moments : List Moment) :
    (runAnimation cfg env token channelId prefName pref radarType moments).fetchedUrls
      = moments.map (fun mm => buildImageUrl cfg ⟨pref.lat, pref.lon, 400, 300, mm⟩) := by
  unfold runAnimation
  dsimp only
  repeat' split
  all_goals rfl

/-- `gifEncoder.finish()` runs exactly once in every branch of the
animation pipeline (the `.finally` of the promise chain). -/
theorem runAnimation_finishCount (cfg : Config) (env : Env) (token channelId : String)
    (prefName : String) (pref : Prefecture) (radarType : String)
    (moments : List Moment) :
    (runAnimation cfg env token channelId prefName pref radarType moments).finishCount = 1 := by
  unfold runAnimation
  dsimp only
  repeat' split
  all_goals rfl

/-- No rejection escapes the animation pipeline: every branch ends with
`uncaught = none` (the chain terminates in `.catch(printCompleteJSON)`
and the status preamble has its own double catch). -/
theorem runAnimation_uncaught (cfg : Config) (env : Env) (token channelId : String)
    (prefName : String) (pref : Prefecture) (radarType : String)
    (moments : List Moment) :
    (runAnimation cfg env token channelId prefName pref radarType moments).uncaught = none := by
  unfold runAnimation
  dsimp only
  repeat' split
  all_goals rfl

/-- The animation pipeline records the status-preamble attempts verbatim. -/
theorem runAnimation_postAttempts (cfg : Config) (env : Env) (token channelId : String)
    (prefName : String) (pref : Prefecture) (radarType : String)
    (moments : List Moment) :
    (runAnimation cfg env token channelId prefName pref radarType moments).postAttempts
      = (statusFlow env).attempts := by
  unfold runAnimation
  dsimp only
  repeat' split
  all_goals rfl

/-- Dispatch equation: a second token `'now'` selects the single-image
branch, at the current Tokyo moment. -/
theorem handleCommand_eq_runNow (cfg : Config) (env : Env)
    (nowUtcMin localOffsetMin : Int) (token channelId a : String) (rest : List String) :
    handleCommand cfg env nowUtcMin localOffsetMin token channelId (a :: "now" :: rest)
      = runNow cfg env token channelId a (resolvePrefecture a) ⟨nowUtcMin, tokyoOffset⟩ := by
  rfl

/-- Dispatch equation: a second token `'today'` selects the animation
branch over the 25 hourly moments with the day-archive caption. -/
theorem handleCommand_eq_today (cfg : Config) (env : Env)
    (nowUtcMin localOffsetMin : Int) (token channelId a : String) (rest : List String) :
    handleCommand cfg env nowUtcMin localOffsetMin token channelId (a :: "today" :: rest)
      = runAnimation cfg env token channelId a (resolvePrefecture a) "直近一日分の"
          (todayMoments ⟨nowUtcMin, tokyoOffset⟩) := by
  rfl

/-- Dispatch equation: any mode other than `'now'` and `'today'`
(including an absent one) selects the animation branch over the 7
forecast moments with the forecast caption. -/
theorem handleCommand_eq_forecast (cfg : Config) (env : Env)
    (nowUtcMin localOffsetMin : Int) (token channelId : String)
    (inputs : List String)
    (h1 : extractMode inputs ≠ some "now") (h2 : extractMode inputs ≠ some "today") :
    handleCommand cfg env nowUtcMin localOffsetMin token channelId inputs
      = runAnimation cfg env token channelId (inputs.headD "tokyo")
          (resolvePrefecture (inputs.headD "tokyo")) "予測"
          (forecastMoments ⟨nowUtcMin, tokyoOffset⟩) := by
  unfold handleCommand
  simp only [if_neg h1, if_neg h2]
  rfl

/-- C4 (confirmed): every `today`-mode invocation issues exactly 25 fetch
URLs; their timestamps are `now - 24h + i` hours for `i = 0 .. 24`, hence
spaced exactly one hour apart, the first exactly 24 hours before the
invocation instant and the last equal to the invocation instant. -/
theorem today_mode_urls (cfg : Config) (env : Env) (nowUtcMin localOffsetMin : Int)
    (token channelId a : String) (rest : List String) :
    ((handleCommand cfg env nowUtcMin localOffsetMin token channelId
        (a :: "today" :: rest)).fetchedUrls
      = (List.range 25).map (fun i =>
          buildImageUrl cfg ⟨(resolvePrefecture a).lat, (resolvePrefecture a).lon, 400, 300,
            ⟨nowUtcMin - 1440 + 60 * i, tokyoOffset⟩⟩))
    ∧ (handleCommand cfg env nowUtcMin localOffsetMin token channelId
        (a :: "today" :: rest)).fetchedUrls.length = 25
    ∧ (handleCommand cfg env nowUtcMin localOffsetMin token channelId
        (a :: "today" :: rest)).fetchedUrls.head?
      = some (buildImageUrl cfg ⟨(resolvePrefecture a).lat, (resolvePrefecture a).lon, 400, 300,
          ⟨nowUtcMin - 1440, tokyoOffset⟩⟩)
    ∧ (handleCommand cfg env nowUtcMin localOffsetMin token channelId
        (a :: "today" :: rest)).fetchedUrls.getLast?
      = some (buildImageUrl cfg ⟨(resolvePrefecture a).lat, (resolvePrefecture a).lon, 400, 300,
          ⟨nowUtcMin, tokyoOffset⟩⟩)
    ∧ List.Chain' (fun p q : Moment => q.epochMin = p.epochMin + 60)
        (todayMoments ⟨nowUtcMin, tokyoOffset⟩) := by
  rw [handleCommand_eq_today, runAnimation_fetchedUrls]
  have hm : todayMoments ⟨nowUtcMin, tokyoOffset⟩
      = (List.range 25).map (fun i => ⟨nowUtcMin - 1440 + 60 * i, tokyoOffset⟩) := by
    rw [todayMoments,
      show Moment.subtractMinutes ⟨nowUtcMin, tokyoOffset⟩ 1440
        = ⟨nowUtcMin - 1440, tokyoOffset⟩ from rfl,
      frameLoop_eq_map]
  refine ⟨?_, ?_, ?_, ?_, ?_⟩
  · rw [hm, List.map_map]; rfl
  · rw [hm]; simp
  · rw [hm, List.map_map, List.head?_map]
    have h0 : (List.range 25).head? = some 0 := by decide
    rw [h0]
    simp only [Option.map_some', Function.comp_apply]
    norm_num
  · rw [hm, List.map_map, List.getLast?_map]
    have h24 : (List.range 25).getLast? = some 24 := by decide
    rw [h24]
    simp only [Option.map_some', Function.comp_apply]
    norm_num
  · rw [todayMoments]
    exact chain_frameLoop 60 25 _

/-- C5 (counterexample): the 7 default-mode timestamps do not lie in the
hour preceding the invocation instant.  At invocation instant 0 the
generated moments include instants strictly after the invocation (the
last one is +50 minutes), so they do not "span the most recent hour". -/
theorem forecast_lookback_counterexample :
    ¬ (∀ mm ∈ forecastMoments ⟨0, tokyoOffset⟩,
        -60 ≤ mm.epochMin ∧ mm.epochMin ≤ 0) := by
  decide

/-- C5 (amended): every default-mode (absent mode token) invocation
issues exactly 7 fetch URLs; their timestamps are `now - 10min + 10min*i`
for `i = 0 .. 6`, hence spaced exactly 10 minutes apart, starting 10
minutes before the invocation instant and ending 50 minutes after it (a
forecast window reaching into the future, not a look-back over the
preceding hour). -/
theorem forecast_mode_urls (cfg : Config) (env : Env) (nowUtcMin localOffsetMin : Int)
    (token channelId : String) (inputs : List String)
    (h : extractMode inputs = none) :
    ((handleCommand cfg env nowUtcMin localOffsetMin token channelId inputs).fetchedUrls
      = (List.range 7).map (fun i =>
          buildImageUrl cfg ⟨(resolvePrefecture (inputs.headD "tokyo")).lat,
            (resolvePrefecture (inputs.headD "tokyo")).lon, 400, 300,
            ⟨nowUtcMin - 10 + 10 * i, tokyoOffset⟩⟩))
    ∧ (handleCommand cfg env nowUtcMin localOffsetMin token channelId
        inputs).fetchedUrls.length = 7
    ∧ (handleCommand cfg env nowUtcMin localOffsetMin token channelId
        inputs).fetchedUrls.head?
      = some (buildImageUrl cfg ⟨(resolvePrefecture (inputs.headD "tokyo")).lat,
          (resolvePrefecture (inputs.headD "tokyo")).lon, 400, 300,
          ⟨nowUtcMin - 10, tokyoOffset⟩⟩)
    ∧ (handleCommand cfg env nowUtcMin localOffsetMin token channelId
        inputs).fetchedUrls.getLast?
      = some (buildImageUrl cfg ⟨(resolvePrefecture (inputs.headD "tokyo")).lat,
          (resolvePrefecture (inputs.headD "tokyo")).lon, 400, 300,
          ⟨nowUtcMin + 50, tokyoOffset⟩⟩)
    ∧ List.Chain' (fun p q : Moment => q.epochMin = p.epochMin + 10)
        (forecastMoments ⟨nowUtcMin, tokyoOffset⟩) := by
  rw [handleCommand_eq_forecast cfg env nowUtcMin localOffsetMin token channelId inputs
      (by rw [h]; exact fun hh => Option.noConfusion hh)
      (by rw [h]; exact fun hh => Option.noConfusion hh),
    runAnimation_fetchedUrls]
  have hm : forecastMoments ⟨nowUtcMin, tokyoOffset⟩
      = (List.range 7).map (fun i => ⟨nowUtcMin - 10 + 10 * i, tokyoOffset⟩) := by
    rw [forecastMoments,
      show Moment.subtractMinutes ⟨nowUtcMin, tokyoOffset⟩ 10
        = ⟨nowUtcMin - 10, tokyoOffset⟩ from rfl,
      frameLoop_eq_map]
  refine ⟨?_, ?_, ?_, ?_, ?_⟩
  · rw [hm, List.map_map]; rfl
  · rw [hm]; simp
  · rw [hm, List.map_map, List.head?_map]
    have h0 : (List.range 7).head? = some 0 := by decide
    rw [h0]
    simp only [Option.map_some', Function.comp_apply]
    norm_num
  · rw [hm, List.map_map, List.getLast?_map]
    have h6 : (List.range 7).getLast? = some 6 := by decide
    rw [h6]
    simp only [Option.map_some', Function.comp_apply, Option.some.injEq,
      ImageUrlArgs.mk.injEq, Moment.mk.injEq]
    norm_num
    have he : nowUtcMin - 10 + 60 = nowUtcMin + 50 := by ring
    rw [he]
  · rw [forecastMoments]
    exact chain_frameLoop 10 7 _

/-- Witness for the amended C5 theorem at a concrete invocation. -/
theorem forecast_mode_urls_witness :
    (handleCommand cfgW envW 0 0 "tk" "ch" ["tokyo"]).fetchedUrls.length = 7 :=
  (forecast_mode_urls cfgW envW 0 0 "tk" "ch" ["tokyo"] (by decide)).2.1

/-- Outside the two inherited `Object.prototype` member names,
`prefectures[name] || prefectures['tokyo']` yields exactly the record
`resolvePrefecture` computes, so the handler model's resolution is exact
for every such token. -/
theorem prefecturesOrDefault_eq_resolve (name : String)
    (h : name ∉ objectPrototypeKeys) :
    prefecturesOrDefault name = PrefLookupResult.record (resolvePrefecture name) := by
  unfold prefecturesOrDefault prefecturesAccess resolvePrefecture
  cases hl : lookupPrefecture name with
  | some p => rfl
  | none =>
    rw [if_neg h]
    decide

/-- C7 (counterexample): the first token `constructor` is not a key of
the prefecture table, yet the invocation does not resolve to the `tokyo`
record: `prefectures['constructor']` finds the truthy `Object`
constructor inherited from `Object.prototype`, so the `||` fallback never
fires and the resolved value is not a `Prefecture` at all. -/
theorem prototype_key_not_default_counterexample :
    lookupPrefecture "constructor" = none
      ∧ prefecturesOrDefault "constructor" = PrefLookupResult.inherited "constructor"
      ∧ prefecturesOrDefault "constructor" ≠ PrefLookupResult.record tokyoPrefecture := by
  decide

/-- C7 (amended): a first command token that is neither a key of the
prefecture table nor one of the two all-lowercase `Object.prototype`
member names (`constructor`, `__proto__`) resolves to exactly the record
stored under `tokyo` (the configured default), with the same display
name, latitude and longitude; for those two member names the access
returns a truthy inherited non-Prefecture value and the fallback does not
fire. -/
theorem unknown_prefecture_default (name : String)
    (h1 : lookupPrefecture name = none) (h2 : name ∉ objectPrototypeKeys) :
    prefecturesOrDefault name = PrefLookupResult.record tokyoPrefecture
      ∧ prefecturesOrDefault name = prefecturesOrDefault "tokyo"
      ∧ resolvePrefecture name = resolvePrefecture "tokyo" := by
  have ha : prefecturesAccess name = PrefLookupResult.undef := by
    unfold prefecturesAccess
    rw [h1, if_neg h2]
  have hb : prefecturesOrDefault name = prefecturesAccess "tokyo" := by
    unfold prefecturesOrDefault
    rw [ha]
  have hc : prefecturesAccess "tokyo" = PrefLookupResult.record tokyoPrefecture := by
    decide
  have hd : prefecturesOrDefault "tokyo" = PrefLookupResult.record tokyoPrefecture := by
    decide
  have he : resolvePrefecture name = tokyoPrefecture := by
    unfold resolvePrefecture
    rw [h1]
    rfl
  have hf : resolvePrefecture "tokyo" = tokyoPrefecture := by decide
  exact ⟨hb.trans hc, (hb.trans hc).trans hd.symm, he.trans hf.symm⟩

/-- Witness for the amended C7 theorem: the typo `tokio` is not a key of
the table, names no prototype member, and resolves to the `tokyo`
record. -/
theorem unknown_prefecture_default_witness :
    prefecturesOrDefault "tokio" = PrefLookupResult.record tokyoPrefecture :=
  (unknown_prefecture_default "tokio" (by decide) (by decide)).1

/-- C10 (confirmed): a second command token that is neither `now` nor
`today` is not validated or rejected: the invocation behaves exactly as
if the mode token were absent (the default forecast animation path). -/
theorem unknown_mode_forecast_default (cfg : Config) (env : Env)
    (nowUtcMin localOffsetMin : Int) (token channelId a s : String) (rest : List String)
    (h1 : s ≠ "now") (h2 : s ≠ "today") :
    handleCommand cfg env nowUtcMin localOffsetMin token channelId (a :: s :: rest)
      = handleCommand cfg env nowUtcMin localOffsetMin token channelId [a] := by
  rw [handleCommand_eq_forecast cfg env nowUtcMin localOffsetMin token channelId
      (a :: s :: rest)
      (fun hh => h1 (Option.some.inj hh)) (fun hh => h2 (Option.some.inj hh)),
    handleCommand_eq_forecast cfg env nowUtcMin localOffsetMin token channelId [a]
      (fun hh => Option.noConfusion hh) (fun hh => Option.noConfusion hh)]
  rfl

/-- Witness for C10 at the concrete unknown mode token `banana`. -/
theorem unknown_mode_forecast_default_witness :
    handleCommand cfgW envW 0 0 "tk" "ch" ["tokyo", "banana"]
      = handleCommand cfgW envW 0 0 "tk" "ch" ["tokyo"] :=
  unknown_mode_forecast_default cfgW envW 0 0 "tk" "ch" "tokyo" "banana" []
    (by decide) (by decide)

/-- Which decode callbacks ran, as a function of the fetch outcomes and
the decode-settlement order only (independent of the status preamble). -/
theorem runAnimation_decodeCalls (cfg : Config) (env : Env) (token channelId : String)
    (prefName : String) (pref : Prefecture) (radarType : String)
    (moments : List Moment) :
    (runAnimation cfg env token channelId prefName pref radarType moments).decodeCalls
      = match firstError ((moments.map (fun mm =>
            buildImageUrl cfg ⟨pref.lat, pref.lon, 400, 300, mm⟩)).map env.fetch) with
        | some _ => []
        | none => (animDecodeResults env (moments.map (fun mm =>
            buildImageUrl cfg ⟨pref.lat, pref.lon, 400, 300, mm⟩))).map (fun p => p.1) := by
  unfold runAnimation
  dsimp only
  repeat' split
  all_goals rfl

/-- The frames appended to the encoder, as a function of the fetch
outcomes and the decode-settlement order only. -/
theorem runAnimation_framesAdded (cfg : Config) (env : Env) (token channelId : String)
    (prefName : String) (pref : Prefecture) (radarType : String)
    (moments : List Moment) :
    (runAnimation cfg env token channelId prefName pref radarType moments).framesAdded
      = match firstError ((moments.map (fun mm =>
            buildImageUrl cfg ⟨pref.lat, pref.lon, 400, 300, mm⟩)).map env.fetch) with
        | some _ => []
        | none => (animDecodeResults env (moments.map (fun mm =>
            buildImageUrl cfg ⟨pref.lat, pref.lon, 400, 300, mm⟩))).filterMap
              (fun p => p.2.toOption) := by
  unfold runAnimation
  dsimp only
  repeat' split
  all_goals rfl

/-- Whether and with what arguments `files.upload` was invoked, as a
function of the fetch and decode outcomes only. -/
theorem runAnimation_uploadCalled (cfg : Config) (env : Env) (token channelId : String)
    (prefName : String) (pref : Prefecture) (radarType : String)
    (moments : List Moment) :
    (runAnimation cfg env token channelId prefName pref radarType moments).uploadCalled
      = match firstError ((moments.map (fun mm =>
            buildImageUrl cfg ⟨pref.lat, pref.lon, 400, 300, mm⟩)).map env.fetch) with
        | some _ => none
        | none =>
          match firstError ((animDecodeResults env (moments.map (fun mm =>
              buildImageUrl cfg ⟨pref.lat, pref.lon, 400, 300, mm⟩))).map (fun p => p.2)) with
          | some _ => none
          | none => some ⟨token, channelId, prefName, pref.kanjiName, radarType,
              FileData.gif ((animDecodeResults env (moments.map (fun mm =>
                buildImageUrl cfg ⟨pref.lat, pref.lon, 400, 300, mm⟩))).filterMap
                  (fun p => p.2.toOption)), "gif"⟩ := by
  unfold runAnimation
  dsimp only
  repeat' split
  all_goals rfl

/-- The handler log of the animation branch always starts with the status
preamble's log lines. -/
theorem runAnimation_logs_suffix (cfg : Config) (env : Env) (token channelId : String)
    (prefName : String) (pref : Prefecture) (radarType : String)
    (moments : List Moment) :
    ∃ t, (runAnimation cfg env token channelId prefName pref radarType moments).logs
      = (statusFlow env).logs ++ t := by
  unfold runAnimation
  dsimp only
  repeat' split
  all_goals exact ⟨_, rfl⟩

/-- Dispatch equation: every mode other than `'now'` takes the animation
branch, with the `'today'` test selecting moments and caption. -/
theorem handleCommand_not_now (cfg : Config) (env : Env)
    (nowUtcMin localOffsetMin : Int) (token channelId : String)
    (inputs : List String) (h : extractMode inputs ≠ some "now") :
    handleCommand cfg env nowUtcMin localOffsetMin token channelId inputs
      = runAnimation cfg env token channelId (inputs.headD "tokyo")
          (resolvePrefecture (inputs.headD "tokyo"))
          (if extractMode inputs = some "today" then "直近一日分の" else "予測")
          (if extractMode inputs = some "today" then todayMoments ⟨nowUtcMin, tokyoOffset⟩
            else forecastMoments ⟨nowUtcMin, tokyoOffset⟩) := by
  unfold handleCommand
  dsimp only
  rw [if_neg h]
  rfl

/-- C6 (confirmed): `buildImageUrl` is a pure total function of its
arguments; its output always contains — as a suffix — its moment's
timestamp formatted `YYYYMMDDHHmm`; and when the moment is built the way
the handler builds it (`moment().tz('Asia/Tokyo')`), the embedded
timestamp is the Asia/Tokyo civil time of the invocation instant, so the
URL does not depend on the local offset of the invoking process. -/
theorem buildImageUrl_tokyo_timestamp (cfg : Config) (lat lon : Dec8)
    (w h : Nat) (nowUtcMin localOffsetMin otherLocalOffsetMin : Int) :
    (∃ s, buildImageUrl cfg
        ⟨lat, lon, w, h, (momentNow nowUtcMin localOffsetMin).tz tokyoOffset⟩
      = s ++ formatYYYYMMDDHHmm ⟨nowUtcMin, tokyoOffset⟩)
    ∧ buildImageUrl cfg
        ⟨lat, lon, w, h, (momentNow nowUtcMin localOffsetMin).tz tokyoOffset⟩
      = buildImageUrl cfg
        ⟨lat, lon, w, h, (momentNow nowUtcMin otherLocalOffsetMin).tz tokyoOffset⟩ :=
  ⟨⟨"https://map.yahooapis.jp/map/V1/static?appid=" ++ cfg.yahooAppId ++
    "&z=10&lat=" ++ decimalString lat ++
    "&lon=" ++ decimalString lon ++
    "&width=" ++ toString w ++
    "&height=" ++ toString h ++
    "&mode=" ++ cfg.yahooMapMode ++
    "&overlay=type:rainfall|datelabel:on|date:", rfl⟩, rfl⟩

/-- C9 (confirmed): on every animation-path invocation (any mode other
than `now`), `gifEncoder.finish()` runs exactly once, whatever the
outcomes of the fetches, decodes, upload, status post and status delete. -/
theorem encoder_finish_once (cfg : Config) (env : Env)
    (nowUtcMin localOffsetMin : Int) (token channelId : String) (inputs : List String)
    (h : extractMode inputs ≠ some "now") :
    (handleCommand cfg env nowUtcMin localOffsetMin token channelId inputs).finishCount
      = 1 := by
  rw [handleCommand_not_now cfg env nowUtcMin localOffsetMin token channelId inputs h,
    runAnimation_finishCount]

/-- Witness for C9: a concrete animation invocation in which the upload
fails still finalizes the encoder exactly once. -/
theorem encoder_finish_once_witness :
    (handleCommand cfgW envFetchFail 0 0 "tk" "ch" ["tokyo", "today"]).finishCount = 1 :=
  encoder_finish_once cfgW envFetchFail 0 0 "tk" "ch" ["tokyo", "today"] (by decide)

/-- C2 (counterexample): in `now` mode a fetch failure is not caught by
the invocation handler — the single-image branch attaches no rejection
handler to `request.get(...).then(uploadImage)`, so the rejection escapes
the handler uncaught (refuting the claim that every failure of every mode
is caught and logged inside the handler). -/
theorem now_mode_uncaught_counterexample :
    (handleCommand cfgW envFetchFail 0 0 "tk" "ch" ["tokyo", "now"]).uncaught
        = some "ECONNRESET"
      ∧ (handleCommand cfgW envFetchFail 0 0 "tk" "ch" ["tokyo", "now"]).logs = [] := by
  decide

/-- C2 (amended): on every animation-path invocation (any mode other than
`now`) no failure of any pipeline step escapes the handler — every branch
ends with the chain's `.catch`/`.finally`, so nothing is left uncaught;
in `now` mode, by contrast, fetch and upload failures escape uncaught. -/
theorem animation_path_no_uncaught (cfg : Config) (env : Env)
    (nowUtcMin localOffsetMin : Int) (token channelId : String) (inputs : List String)
    (h : extractMode inputs ≠ some "now") :
    (handleCommand cfg env nowUtcMin localOffsetMin token channelId inputs).uncaught
      = none := by
  rw [handleCommand_not_now cfg env nowUtcMin localOffsetMin token channelId inputs h,
    runAnimation_uncaught]

/-- Witness for the amended C2 theorem: even with every fetch failing,
the animation branch leaves nothing uncaught. -/
theorem animation_path_no_uncaught_witness :
    (handleCommand cfgW envFetchFail 0 0 "tk" "ch" ["tokyo"]).uncaught = none :=
  animation_path_no_uncaught cfgW envFetchFail 0 0 "tk" "ch" ["tokyo"] (by decide)

/-- When some fetch fails, the `.catch` logs exactly that batch error
after the status preamble's lines. -/
theorem runAnimation_logs_fetchFail (cfg : Config) (env : Env) (token channelId : String)
    (prefName : String) (pref : Prefecture) (radarType : String)
    (moments : List Moment) (e : String)
    (h : firstError ((moments.map (fun mm =>
        buildImageUrl cfg ⟨pref.lat, pref.lon, 400, 300, mm⟩)).map env.fetch) = some e) :
    (runAnimation cfg env token channelId prefName pref radarType moments).logs
      = (statusFlow env).logs ++ [LogItem.errItem e] := by
  unfold runAnimation
  dsimp only
  rw [h]

/-- C3 (confirmed): on every animation-path invocation, if any one of the
frame fetches rejects, then no decode callback runs, no frame is appended
to the encoder, `files.upload` is never invoked, and the batch error is
logged (all-or-nothing, no retry). -/
theorem fetch_failure_all_or_nothing (cfg : Config) (env : Env)
    (nowUtcMin localOffsetMin : Int) (token channelId : String) (inputs : List String)
    (hmode : extractMode inputs ≠ some "now") (e : String)
    (hfail : firstError (((handleCommand cfg env nowUtcMin localOffsetMin token channelId
        inputs).fetchedUrls).map env.fetch) = some e) :
    (handleCommand cfg env nowUtcMin localOffsetMin token channelId inputs).decodeCalls = []
    ∧ (handleCommand cfg env nowUtcMin localOffsetMin token channelId inputs).framesAdded = []
    ∧ (handleCommand cfg env nowUtcMin localOffsetMin token channelId inputs).uploadCalled
        = none
    ∧ LogItem.errItem e
        ∈ (handleCommand cfg env nowUtcMin localOffsetMin token channelId inputs).logs := by
  rw [handleCommand_not_now cfg env nowUtcMin localOffsetMin token channelId inputs hmode]
    at hfail ⊢
  rw [runAnimation_fetchedUrls] at hfail
  refine ⟨?_, ?_, ?_, ?_⟩
  · rw [runAnimation_decodeCalls, hfail]
  · rw [runAnimation_framesAdded, hfail]
  · rw [runAnimation_uploadCalled, hfail]
  · rw [runAnimation_logs_fetchFail cfg env token channelId _ _ _ _ e hfail]
    simp

/-- Witness for C3: with every fetch failing, the animation invocation
decodes nothing, adds no frame, performs no upload, and logs the error. -/
theorem fetch_failure_all_or_nothing_witness :
    (handleCommand cfgW envFetchFail 0 0 "tk" "ch" ["tokyo"]).framesAdded = []
      ∧ (handleCommand cfgW envFetchFail 0 0 "tk" "ch" ["tokyo"]).uploadCalled = none := by
  refine ⟨(fetch_failure_all_or_nothing cfgW envFetchFail 0 0 "tk" "ch" ["tokyo"]
      (by decide) "ECONNRESET" (by decide)).2.1,
    (fetch_failure_all_or_nothing cfgW envFetchFail 0 0 "tk" "ch" ["tokyo"]
      (by decide) "ECONNRESET" (by decide)).2.2.1⟩

/-- The pipeline-progress fields of the animation branch do not depend on
the `chat.postMessage` outcomes at all. -/
theorem runAnimation_pipelineView_post (cfg : Config) (env : Env)
    (p : Bool → Except String PostResult) (token channelId : String)
    (prefName : String) (pref : Prefecture) (radarType : String)
    (moments : List Moment) :
    pipelineView (runAnimation cfg { env with post := p } token channelId
        prefName pref radarType moments)
      = pipelineView (runAnimation cfg env token channelId
        prefName pref radarType moments) := by
  unfold pipelineView
  rw [runAnimation_fetchedUrls, runAnimation_fetchedUrls,
    runAnimation_decodeCalls, runAnimation_decodeCalls,
    runAnimation_framesAdded, runAnimation_framesAdded,
    runAnimation_uploadCalled, runAnimation_uploadCalled,
    runAnimation_finishCount, runAnimation_finishCount]
  rfl

/-- C8 (confirmed): on every animation-path invocation, if the first
status post fails, exactly one retry is made, with `as_user: false`; if
that retry also fails, no handle is kept, both errors are logged first,
nothing is thrown to the caller, and the pipeline fields (fetch, decode,
frames, upload, finish) are exactly what they would have been under any
other post outcome. -/
theorem status_post_retry_policy (cfg : Config) (env : Env)
    (nowUtcMin localOffsetMin : Int) (token channelId : String) (inputs : List String)
    (hmode : extractMode inputs ≠ some "now") (e : String)
    (hpost : env.post true = Except.error e) :
    (statusFlow env).attempts = [true, false]
    ∧ (handleCommand cfg env nowUtcMin localOffsetMin token channelId inputs).postAttempts
        = [true, false]
    ∧ (∀ e2, env.post false = Except.error e2 →
        (statusFlow env).loadingTs = none
        ∧ (statusFlow env).logs = [LogItem.errItem e, LogItem.errItem e2]
        ∧ (handleCommand cfg env nowUtcMin localOffsetMin token channelId inputs).uncaught
            = none
        ∧ ∃ t, (handleCommand cfg env nowUtcMin localOffsetMin token channelId inputs).logs
            = [LogItem.errItem e, LogItem.errItem e2] ++ t)
    ∧ (∀ p : Bool → Except String PostResult,
        pipelineView (handleCommand cfg { env with post := p } nowUtcMin localOffsetMin
            token channelId inputs)
          = pipelineView (handleCommand cfg env nowUtcMin localOffsetMin
            token channelId inputs)) := by
  have hattempts : (statusFlow env).attempts = [true, false] := by
    unfold statusFlow
    rw [hpost]
    cases env.post false <;> rfl
  refine ⟨hattempts, ?_, ?_, ?_⟩
  · rw [handleCommand_not_now cfg env nowUtcMin localOffsetMin token channelId inputs hmode,
      runAnimation_postAttempts, hattempts]
  · intro e2 he2
    have hsf : statusFlow env
        = ⟨[true, false], none, [LogItem.errItem e, LogItem.errItem e2]⟩ := by
      unfold statusFlow
      rw [hpost, he2]
    refine ⟨by rw [hsf], by rw [hsf], ?_, ?_⟩
    · rw [handleCommand_not_now cfg env nowUtcMin localOffsetMin token channelId inputs hmode,
        runAnimation_uncaught]
    · rw [handleCommand_not_now cfg env nowUtcMin localOffsetMin token channelId inputs hmode]
      obtain ⟨t, ht⟩ := runAnimation_logs_suffix cfg env token channelId
        (inputs.headD "tokyo") (resolvePrefecture (inputs.headD "tokyo"))
        (if extractMode inputs = some "today" then "直近一日分の" else "予測")
        (if extractMode inputs = some "today" then todayMoments ⟨nowUtcMin, tokyoOffset⟩
          else forecastMoments ⟨nowUtcMin, tokyoOffset⟩)
      rw [hsf] at ht
      exact ⟨t, ht⟩
  · intro p
    rw [handleCommand_not_now cfg env nowUtcMin localOffsetMin token channelId inputs hmode,
      handleCommand_not_now cfg { env with post := p } nowUtcMin localOffsetMin
        token channelId inputs hmode,
      runAnimation_pipelineView_post]

/-- Witness for C8: with both status posts failing concretely, the retry
shape, the absent handle, and the uncaught-free outcome are realised. -/
theorem status_post_retry_policy_witness :
    (statusFlow envPostFail).attempts = [true, false]
      ∧ (statusFlow envPostFail).loadingTs = none
      ∧ (handleCommand cfgW envPostFail 0 0 "tk" "ch" ["tokyo"]).uncaught = none := by
  refine ⟨(status_post_retry_policy cfgW envPostFail 0 0 "tk" "ch" ["tokyo"]
      (by decide) "not_in_channel" rfl).1, ?_, ?_⟩
  · exact ((status_post_retry_policy cfgW envPostFail 0 0 "tk" "ch" ["tokyo"]
      (by decide) "not_in_channel" rfl).2.2.1 "not_in_channel" rfl).1
  · exact ((status_post_retry_policy cfgW envPostFail 0 0 "tk" "ch" ["tokyo"]
      (by decide) "not_in_channel" rfl).2.2.1 "not_in_channel" rfl).2.2.1

/-- If no settled request in a batch is a rejection, extracting the
fulfillment values loses no element. -/
theorem length_filterMap_of_firstError_none :
    ∀ rs : List (Except String String), firstError rs = none →
      (rs.filterMap (fun r => r.toOption)).length = rs.length := by
  intro rs
  induction rs with
  | nil => intro _; rfl
  | cons r rest ih =>
    intro h
    cases r with
    | error e => exact Option.noConfusion h
    | ok v =>
      have h2 : firstError rest = none := h
      rw [show (Except.ok v :: rest).filterMap (fun r => r.toOption)
          = v :: rest.filterMap (fun r => r.toOption) from List.filterMap_cons_some rfl,
        List.length_cons, List.length_cons, ih h2]

/-- When the decode callbacks run in start (index) order over a batch of
images, the frames they append are exactly the successfully decoded
images in index order — whatever index tag the pairs carry. -/
theorem decode_frames_in_order (g : String → Except String String) :
    ∀ (images : List String) (tag : Nat → Nat),
      ((List.range images.length).filterMap
          (fun i => (images.get? i).map (fun b => (tag i, g b)))).filterMap
        (fun p => p.2.toOption)
      = images.filterMap (fun b => (g b).toOption) := by
  intro images
  induction images with
  | nil => intro tag; rfl
  | cons x xs ih =>
    intro tag
    rw [List.length_cons, List.range_succ_eq_map,
      @List.filterMap_cons_some Nat (Nat × Except String String)
        (fun i => (((x :: xs).get? i).map (fun b => (tag i, g b)))) 0
        (List.map Nat.succ (List.range xs.length)) (tag 0, g x) rfl,
      List.filterMap_map]
    have hcomp : ((fun i => (((x :: xs).get? i).map (fun b => (tag i, g b)))) ∘ Nat.succ)
        = fun i => ((xs.get? i).map (fun b => (tag (i + 1), g b))) := by
      funext i
      rfl
    rw [hcomp]
    cases hgx : (g x).toOption with
    | none =>
      rw [@List.filterMap_cons_none (Nat × Except String String) String
          (fun p => p.2.toOption) (tag 0, g x)
          (List.filterMap (fun i => ((xs.get? i).map (fun b => (tag (i + 1), g b))))
            (List.range xs.length)) hgx,
        @List.filterMap_cons_none String String (fun b => (g b).toOption) x xs hgx]
      exact ih (fun i => tag (i + 1))
    | some v =>
      rw [@List.filterMap_cons_some (Nat × Except String String) String
          (fun p => p.2.toOption) (tag 0, g x)
          (List.filterMap (fun i => ((xs.get? i).map (fun b => (tag (i + 1), g b))))
            (List.range xs.length)) v hgx,
        @List.filterMap_cons_some String String (fun b => (g b).toOption) x xs v hgx]
      rw [ih (fun i => tag (i + 1))]

/-- When every fetch fulfills and the decode promises settle in start
order, the frames appended by the decode stage are index-aligned with the
fetched URL list (the chronological build order). -/
theorem animDecodeResults_frames_chron (env : Env) (urls : List String)
    (hord : env.decodeOrder = List.range urls.length)
    (hfetch : firstError (urls.map env.fetch) = none) :
    (animDecodeResults env urls).filterMap (fun p => p.2.toOption)
      = urls.filterMap
          (fun u => (env.fetch u).toOption.bind (fun b => (env.decode b).toOption)) := by
  unfold animDecodeResults
  dsimp only
  rw [hord]
  have hlen : urls.length
      = ((urls.map env.fetch).filterMap (fun r => r.toOption)).length := by
    rw [length_filterMap_of_firstError_none _ hfetch, List.length_map]
  rw [hlen,
    decode_frames_in_order env.decode ((urls.map env.fetch).filterMap (fun r => r.toOption))
      (fun i => i),
    List.filterMap_filterMap, List.filterMap_map]
  rfl

set_option maxRecDepth 100000 in
/-- C1 (counterexample): the frame order of the encoded GIF is NOT
invariant under the order in which the image decodes complete.  In a
concrete animation invocation in which every fetch and every decode
succeeds (each frame is its own URL) but decode 1 settles before decode
0, a full 7-frame GIF is produced and uploaded whose frame list differs
from the chronological (URL build) order. -/
theorem frame_order_decode_completion_counterexample :
    (handleCommand cfgW envC1 0 0 "tk" "ch" ["tokyo"]).framesAdded
        ≠ (handleCommand cfgW envC1 0 0 "tk" "ch" ["tokyo"]).fetchedUrls
      ∧ (handleCommand cfgW envC1 0 0 "tk" "ch" ["tokyo"]).framesAdded.length = 7
      ∧ (handleCommand cfgW envC1 0 0 "tk" "ch" ["tokyo"]).uploadCalled ≠ none := by
  decide

/-- C1 (amended): on every animation-path invocation in which every fetch
fulfills and the decode promises settle in the order they were started
(index order), the frames of the encoded GIF are exactly the frames
obtained from the fetched URL list in its build (chronological) order —
and this holds for every settlement order of the network fetches, whose
order cannot influence the result at all (`Promise.all`'s fulfillment
list is index-aligned). -/
theorem frame_order_chronological (cfg : Config) (env : Env)
    (nowUtcMin localOffsetMin : Int) (token channelId : String) (inputs : List String)
    (hmode : extractMode inputs ≠ some "now")
    (hord : env.decodeOrder = List.range
      (handleCommand cfg env nowUtcMin localOffsetMin token channelId
        inputs).fetchedUrls.length)
    (hfetch : firstError (((handleCommand cfg env nowUtcMin localOffsetMin token channelId
        inputs).fetchedUrls).map env.fetch) = none) :
    (handleCommand cfg env nowUtcMin localOffsetMin token channelId inputs).framesAdded
      = ((handleCommand cfg env nowUtcMin localOffsetMin token channelId
          inputs).fetchedUrls).filterMap
          (fun u => (env.fetch u).toOption.bind (fun b => (env.decode b).toOption))
    ∧ (∀ ao : List Nat,
        (handleCommand cfg { env with arrivalOrder := ao } nowUtcMin localOffsetMin
            token channelId inputs).framesAdded
          = (handleCommand cfg env nowUtcMin localOffsetMin token channelId
            inputs).framesAdded) := by
  rw [handleCommand_not_now cfg env nowUtcMin localOffsetMin token channelId inputs hmode]
    at hord hfetch ⊢
  rw [runAnimation_fetchedUrls] at hord hfetch ⊢
  constructor
  · rw [runAnimation_framesAdded, hfetch]
    exact animDecodeResults_frames_chron env _ hord hfetch
  · intro ao
    rw [handleCommand_not_now cfg { env with arrivalOrder := ao } nowUtcMin localOffsetMin
        token channelId inputs hmode,
      runAnimation_framesAdded, runAnimation_framesAdded]
    rfl

/-- Witness for the amended C1 theorem at a concrete invocation whose
decodes settle in start order. -/
theorem frame_order_chronological_witness :
    (handleCommand cfgW envW 0 0 "tk" "ch" ["tokyo"]).framesAdded
      = ((handleCommand cfgW envW 0 0 "tk" "ch" ["tokyo"]).fetchedUrls).filterMap
          (fun u => (envW.fetch u).toOption.bind (fun b => (envW.decode b).toOption)) :=
  (frame_order_chronological cfgW envW 0 0 "tk" "ch" ["tokyo"]
    (by decide) (by decide) (by decide)).1
